import Mathlib

/-!
Verification of the elia-opendata repository's pagination-and-merge engine
with dataset-transition resolution, as a shallow embedding of
`src/elia_opendata/data_processor.py`, `imbalance_data_processor.py`,
`dataset_catalog.py` and the export path of `client.py`.

Modelling conventions:
* A record is opaque; definitions are polymorphic in the record type.
* Python datetimes are modelled as natural numbers in the order-preserving
  encoding `yyyy*10000 + mm*100 + dd` (time-of-day is irrelevant to every
  comparison made by the code, because the transition constants are
  midnights and the query strings are produced with the day-granular
  format `%Y-%m-%d`).
* A Python value that may be either a `str` or a `datetime` (the code is
  dynamically typed and `fetch_data_between` accepts both) is `PyV`.
* Raising `ValueError` is modelled with `Except`; the transport
  (`EliaClient.get_records` / `EliaClient.export`) is an external
  collaborator and is a function parameter.
-/

deriving instance DecidableEq for Except

namespace EliaOpendata

/-- A dynamically typed Python argument: either a `str` or a `datetime`
(in the `yyyymmdd` numeric encoding). `fetch_data_between` accepts both,
and the `ImbalanceDataProcessor` subclass in fact passes dataset-id
strings and datetimes into each other's positions, so the embedding must
keep the dynamic typing. -/
inductive PyV where
  | pstr (s : String)
  | pdt (d : Nat)
deriving DecidableEq

/-- Errors the embedded code can raise. `valueError` carries the message of
the Python `ValueError`; `typeConfusion` stands for the duck-typing failure
Python would produce if `_merge_data` received two results in different
representations (no code path of the library produces it). -/
inductive PyErr where
  | valueError (msg : String)
  | typeConfusion
deriving DecidableEq

/-- The caller-visible result representation, from `_format_output`
(`data_processor.py` lines 625-658): a raw record list for
`return_type="json"`, a pandas `DataFrame` (modelled as its ordered row
list) for `"pandas"`, a polars `DataFrame` likewise for `"polars"`.
`rawBytes` models the undecoded payload returned by the dead final
`return exported_data` of `_fetch_via_export`. -/
inductive Output (α : Type) where
  | json (records : List α)
  | pandas (rows : List α)
  | polars (rows : List α)
  | rawBytes (rows : List α)
deriving DecidableEq

/-- The ordered record sequence held by an output value. -/
def outputRecords {α : Type} : Output α → List α
  | .json records => records
  | .pandas rows => rows
  | .polars rows => rows
  | .rawBytes rows => rows

/-- The caller-visible record count of an output value (for the raw list
and for both DataFrame representations this is its number of rows). -/
def outputCount {α : Type} (o : Output α) : Nat :=
  (outputRecords o).length

/-- `EliaDataProcessor.__init__` (`data_processor.py` lines 139-145):
validates `return_type` against the three supported formats and stores it;
the stored attribute is never reassigned anywhere in the library, and
`ImbalanceDataProcessor.__init__` delegates to this same validation via
`super().__init__`. -/
def initProcessor (return_type : String) : Except PyErr String :=
  if return_type = "json" ∨ return_type = "pandas" ∨ return_type = "polars" then
    .ok return_type
  else
    .error (.valueError ("Invalid return_type: " ++ return_type ++
      ". Must be \x27json\x27, \x27pandas\x27, or \x27polars\x27"))

/-- `EliaDataProcessor._format_output` (`data_processor.py` lines 625-658):
dispatch on `return_type`; `pd.DataFrame(records)` and
`pl.DataFrame(records)` build a frame whose rows are the records in
order. -/
def formatOutput {α : Type} (return_type : String) (records : List α) :
    Except PyErr (Output α) :=
  if return_type = "json" then .ok (.json records)
  else if return_type = "pandas" then .ok (.pandas records)
  else if return_type = "polars" then .ok (.polars records)
  else .error (.valueError ("Unsupported return type: " ++ return_type))

/-- `EliaDataProcessor._merge_data` (`data_processor.py` lines 581-623):
`"json"` concatenates the two lists; `"pandas"` and `"polars"` return the
other frame unchanged when one is empty and otherwise concatenate rows in
order (`pd.concat(..., ignore_index=True)` / `pl.concat`); any other
`return_type` raises `ValueError`. A representation mismatch would be a
Python duck-typing failure, modelled as `typeConfusion`. -/
def mergeData {α : Type} (return_type : String) (pre_mari_data post_mari_data : Output α) :
    Except PyErr (Output α) :=
  if return_type = "json" then
    match pre_mari_data, post_mari_data with
    | .json xs, .json ys => .ok (.json (xs ++ ys))
    | _, _ => .error .typeConfusion
  else if return_type = "pandas" then
    match pre_mari_data, post_mari_data with
    | .pandas xs, .pandas ys =>
      if xs.isEmpty then .ok (.pandas ys)
      else if ys.isEmpty then .ok (.pandas xs)
      else .ok (.pandas (xs ++ ys))
    | _, _ => .error .typeConfusion
  else if return_type = "polars" then
    match pre_mari_data, post_mari_data with
    | .polars xs, .polars ys =>
      if xs.isEmpty then .ok (.polars ys)
      else if ys.isEmpty then .ok (.polars xs)
      else .ok (.polars (xs ++ ys))
    | _, _ => .error .typeConfusion
  else
    .error (.valueError ("Unsupported return type: " ++ return_type))

/-- The date filter built by `_fetch_data_for_period` (`data_processor.py`
lines 459-462): the ODSQL range-membership clause
`datetime IN [date's'..date'e']`. -/
def dateFilterClause (start_date_str end_date_str : String) : String :=
  "datetime IN [date\x27" ++ start_date_str ++ "\x27..date\x27" ++ end_date_str ++ "\x27]"

/-- The filter combination of `_fetch_data_for_period` (`data_processor.py`
lines 463-466): a caller-supplied `where` is wrapped in parentheses and
conjoined with the parenthesized date clause by `AND`; with no caller
clause the date clause is used alone. -/
def combineWhere (existing : Option String) (where_condition : String) : String :=
  match existing with
  | some w => "(" ++ w ++ ") AND (" ++ where_condition ++ ")"
  | none => where_condition

/-- `MARI_TRANSITION_DATE = datetime(2024, 5, 22)` of `data_processor.py`
line 49, in the `yyyymmdd` encoding. -/
def MARI_TRANSITION_DATE_DP : Nat := 20240522

/-- `MARI_TRANSITION_DATE = datetime(2024, 4, 22)` of
`imbalance_data_processor.py` line 57, in the `yyyymmdd` encoding. Note it
disagrees with `MARI_TRANSITION_DATE_DP` by one month. -/
def MARI_TRANSITION_DATE_IDP : Nat := 20240422

/-- `DATASET_NAME_MAPPING` of `dataset_catalog.py` lines 128-149, with each
friendly name mapped to its `pre_mari` and `post_mari` dataset ids. -/
def DATASET_NAME_MAPPING : List (String × String × String) :=
  [("IMBALANCE_PRICES_QH", "ods047", "ods134"),
   ("IMBALANCE_PRICES_MIN", "ods046", "ods133"),
   ("SYSTEM_IMBALANCE", "ods045", "ods126"),
   ("ACTIVATED_BALANCING_VOLUMES", "ods061", "ods063"),
   ("ACTIVATED_BALANCING_PRICES", "ods062", "ods064")]

/-- Python dict lookup `DATASET_NAME_MAPPING[dataset_name]`, returning the
`(pre_mari, post_mari)` id pair when the name is a key. -/
def lookupMapping (dataset_name : String) : Option (String × String) :=
  (DATASET_NAME_MAPPING.find? (fun p => p.1 = dataset_name)).map (fun p => p.2)

/-- True of a character in the ASCII digit range. -/
def isDigitCh (c : Char) : Bool :=
  48 ≤ c.toNat && c.toNat ≤ 57

/-- Numeric value of an ASCII digit. -/
def digitVal (c : Char) : Nat :=
  c.toNat - 48

/-- Model of the Python stdlib call `datetime.fromisoformat` (an external
collaborator of this repository): a string beginning with a calendar date
`YYYY-MM-DD` parses to that date in the `yyyymmdd` encoding; anything else
raises `ValueError`, which the caller observes. (The stdlib also validates
month/day ranges and the tail after the date; no input exercised by the
claims depends on that.) -/
def parseIso (s : String) : Option Nat :=
  match s.toList with
  | y1 :: y2 :: y3 :: y4 :: c1 :: m1 :: m2 :: c2 :: d1 :: d2 :: _rest =>
    if isDigitCh y1 && isDigitCh y2 && isDigitCh y3 && isDigitCh y4 &&
        (c1 = '-') && isDigitCh m1 && isDigitCh m2 &&
        (c2 = '-') && isDigitCh d1 && isDigitCh d2 then
      some ((((digitVal y1 * 10 + digitVal y2) * 10 + digitVal y3) * 10 + digitVal y4) * 10000 +
        (digitVal m1 * 10 + digitVal m2) * 100 + (digitVal d1 * 10 + digitVal d2))
    else none
  | _ => none

/-- Left-pads a (two-digit) number with a zero, as `%m` / `%d` do. -/
def pad2 (n : Nat) : String :=
  if n < 10 then "0" ++ toString n else toString n

/-- `strftime(DATE_FORMAT)` with `DATE_FORMAT = "%Y-%m-%d"`
(`data_processor.py` line 48) on a datetime in the `yyyymmdd` encoding. -/
def fmtDate (d : Nat) : String :=
  toString (d / 10000) ++ "-" ++ pad2 (d / 100 % 100) ++ "-" ++ pad2 (d % 100)

/-- Python `datetime.fromisoformat` applied to a value that may be a `str`
or already a `datetime` — the conversion step of `fetch_data_between`
(`data_processor.py` lines 334-342): strings are parsed (raising
`ValueError` when unparsable), datetimes pass through. -/
def toDt : PyV → Except PyErr Nat
  | .pdt d => .ok d
  | .pstr s =>
    match parseIso s with
    | some d => .ok d
    | none => .error (.valueError ("Invalid isoformat string: \x27" ++ s ++ "\x27"))

/-- The stringification step of `fetch_data_between` (`data_processor.py`
lines 344-353): a datetime is formatted with `%Y-%m-%d`, a string is passed
through unchanged. -/
def strOf : PyV → String
  | .pstr s => s
  | .pdt d => fmtDate d

/-- One call to `_fetch_data_for_period`: the physical dataset reference
handed to the transport together with the per-segment date bounds (as the
strings the code passes). `datasetId` is a `PyV` because the dynamically
typed code can and does route non-string values into this position. -/
structure Segment where
  datasetId : PyV
  startStr : String
  endStr : String
deriving DecidableEq

/-- `EliaDataProcessor.fetch_data_between` (`data_processor.py` lines
327-439), instrumented to return the ordered list of
`_fetch_data_for_period` invocations (the fetch plan) instead of
performing them; an `Except.error` is a `ValueError` raised before any
network call. The parameter order `(start_date, end_date, dataset_id,
dataset_name)` is the source's positional order, which matters because the
subclass calls it positionally. In the straddling case the pre-segment end
is `MARI_TRANSITION_DATE - pd.Timedelta(days=1)` (lines 400-402): for this
constant (day 22 of a month) calendar minus-one-day equals numeric
minus-one in the `yyyymmdd` encoding. -/
def fetchDataBetween (start_date end_date : PyV)
    (dataset_id : Option PyV) (dataset_name : Option String) :
    Except PyErr (List Segment) :=
  if dataset_id = none ∧ dataset_name = none then
    .error (.valueError "Either dataset_id or dataset_name must be provided")
  else
    match toDt start_date with
    | .error e => .error e
    | .ok start_dt =>
      match toDt end_date with
      | .error e => .error e
      | .ok end_dt =>
        let start_date_str := strOf start_date
        let end_date_str := strOf end_date
        match dataset_name with
        | some name =>
          match lookupMapping name with
          | none =>
            .error (.valueError ("Dataset name \x27" ++ name ++
              "\x27 not found in DATASET_NAME_MAPPING"))
          | some (pre_mari_id, post_mari_id) =>
            if end_dt < MARI_TRANSITION_DATE_DP then
              .ok [⟨.pstr pre_mari_id, start_date_str, end_date_str⟩]
            else if MARI_TRANSITION_DATE_DP ≤ start_dt then
              .ok [⟨.pstr post_mari_id, start_date_str, end_date_str⟩]
            else
              .ok [⟨.pstr pre_mari_id, start_date_str, fmtDate (MARI_TRANSITION_DATE_DP - 1)⟩,
                   ⟨.pstr post_mari_id, fmtDate MARI_TRANSITION_DATE_DP, end_date_str⟩]
        | none =>
          match dataset_id with
          | none => .error (.valueError "dataset_id must be provided when dataset_name is not used")
          | some did => .ok [⟨did, start_date_str, end_date_str⟩]

/-- `ImbalanceDataProcessor.fetch_data_between`
(`imbalance_data_processor.py` lines 151-277). Its calls
`super().fetch_data_between(self.pre_mari_dataset_id, start_date,
end_date, **kwargs)` pass three POSITIONAL arguments, and the parent's
positional parameters are `(start_date, end_date, dataset_id,
dataset_name)`; hence the dataset id lands in the parent's `start_date`
slot, the child's start date in `end_date`, and the child's end date in
`dataset_id` — reproduced here exactly. The straddling branch uses the
hard-coded `transition_date_minus_one = datetime(2024, 4, 21)` (line 260)
and merges the two results (plan-level: concatenation). -/
def imbalanceFetchDataBetween (pre_mari_dataset_id post_mari_dataset_id : String)
    (_dataset_id : Option PyV) (start_date end_date : PyV) :
    Except PyErr (List Segment) :=
  match toDt start_date with
  | .error e => .error e
  | .ok start_dt =>
    match toDt end_date with
    | .error e => .error e
    | .ok end_dt =>
      if end_dt < MARI_TRANSITION_DATE_IDP then
        fetchDataBetween (.pstr pre_mari_dataset_id) start_date (some end_date) none
      else if MARI_TRANSITION_DATE_IDP ≤ start_dt then
        fetchDataBetween (.pstr post_mari_dataset_id) start_date (some end_date) none
      else
        match fetchDataBetween (.pstr pre_mari_dataset_id) start_date (some (.pdt 20240421)) none with
        | .error e => .error e
        | .ok pre_mari_data =>
          match fetchDataBetween (.pstr post_mari_dataset_id) (.pdt MARI_TRANSITION_DATE_IDP) (some end_date) none with
          | .error e => .error e
          | .ok post_mari_data => .ok (pre_mari_data ++ post_mari_data)

/-- Modelled from the spec (section 4.1): the API-side semantics of the
generated range-membership clause, which is interpreted by the external
Elia OpenData service, not by code of this repository. A record whose
datetime field encodes to `d` is selected by the clause with bounds
`s`, `e` exactly when `d` lies in the closed interval. -/
def odsqlRangeSelects (s e d : Nat) : Bool :=
  decide (s ≤ d) && decide (d ≤ e)

/-- The pagination loop of `_fetch_via_pagination` (`data_processor.py`
lines 496-522). `transport limit offset` is the record list returned by
the external collaborator `self.client.get_records(dataset_id, limit,
offset, ...)`. The loop is instrumented with the list of offsets at which
`get_records` was invoked and with a Boolean recording whether the
`logger.warning` truncation branch (lines 516-522) fired. `fuel` bounds
the number of iterations so the function is total; `none` models the
divergence that a `limit = 0` call against a server ignoring `limit`
would produce, and is proved unreachable for positive `limit` (the fuel
`10001` of `fetchViaPagination` dominates the iteration count forced by
the 10,000-record ceiling). -/
def pagGo {α : Type} (transport : Nat → Nat → List α) (limit : Nat) :
    Nat → Nat → List α → List Nat → Option (List α × List Nat × Bool)
  | 0, _, _, _ => none
  | fuel + 1, offset, all_records, calls =>
    let batch_records := transport limit offset
    let calls := calls ++ [offset]
    if batch_records.isEmpty then some (all_records, calls, false)
    else
      let all_records := all_records ++ batch_records
      if batch_records.length < limit then some (all_records, calls, false)
      else
        let offset := offset + limit
        if limit + offset > 10000 then some (all_records, calls, true)
        else pagGo transport limit fuel offset all_records calls

/-- `_fetch_via_pagination`'s loop run from `offset = 0` with an empty
accumulator, as the source does (lines 491-494). -/
def fetchViaPagination {α : Type} (transport : Nat → Nat → List α) (limit : Nat) :
    Option (List α × List Nat × Bool) :=
  pagGo transport limit 10001 0 [] []

/-- A transport backed by one fixed server-side result set: the page at
`offset` with page size `limit` is the corresponding slice of `data`, and
the server-declared `total_count` of the query is `data.length`. This is
the mock-page model of spec section 8. -/
def sliceTransport {α : Type} (data : List α) : Nat → Nat → List α :=
  fun limit offset => (data.drop offset).take limit

/-- A transport returning the same fixed page at every offset (used to
model a server with more data than the safety ceiling admits). -/
def constTransport {α : Type} (page : List α) : Nat → Nat → List α :=
  fun _ _ => page

/-- What `_fetch_via_pagination` actually hands back to its caller (line
524): `_format_output(all_records)` — the offset trace is only visible as
HTTP traffic and the truncation signal only as a log line. -/
def paginationCallerResult {α : Type} (return_type : String)
    (r : Option (List α × List Nat × Bool)) : Option (Except PyErr (Output α)) :=
  r.map (fun x => formatOutput return_type x.1)

/-- The JSON payload shapes `_fetch_via_export` distinguishes
(`data_processor.py` lines 559-567): a dict with a `results` key, a bare
list, or any other single object (wrapped into a one-element list). -/
inductive JsonExport (α : Type) where
  | withResults (results : List α)
  | bare (results : List α)
  | single (v : α)
deriving DecidableEq

/-- The record list `_fetch_via_export` extracts from a JSON export
payload (lines 560-567). -/
def jsonExportRecords {α : Type} : JsonExport α → List α
  | .withResults results => results
  | .bare results => results
  | .single v => [v]

/-- An instrumented run of `_fetch_via_export`: the value returned to the
caller, the `export_format` requested from `client.export`, and how many
`client.export` and `client.get_records` calls were made. -/
structure ExportRun (α : Type) where
  result : Except PyErr (Output α)
  exportFormat : String
  exportCalls : Nat
  recordCalls : Nat

/-- `EliaDataProcessor._fetch_via_export` (`data_processor.py` lines
526-579). The external collaborator `client.export` is modelled by the
payloads it would return for each format: `jsonPayload` for
`export_format="json"` and `parquetRows` (the row list encoded in the
parquet bytes) for `export_format="parquet"`; `pd.read_parquet` /
`pl.read_parquet` decode those bytes into a frame with exactly those rows.
Exactly one `client.export` call and no `get_records` call is made; the
final `return exported_data` of the source (line 579) is the `rawBytes`
arm, reachable only for a `return_type` outside the three supported
ones. -/
def fetchViaExport {α : Type} (jsonPayload : JsonExport α) (parquetRows : List α)
    (return_type : String) : ExportRun α :=
  let export_format := if return_type = "pandas" ∨ return_type = "polars" then "parquet" else "json"
  let result :=
    if export_format = "json" then
      formatOutput return_type (jsonExportRecords jsonPayload)
    else if return_type = "pandas" then .ok (.pandas parquetRows)
    else if return_type = "polars" then .ok (.polars parquetRows)
    else .ok (.rawBytes parquetRows)
  ⟨result, export_format, 1, 0⟩

/-! ## Theorems -/

/-- Helper: a two-level if whose every branch is `Except.ok` never equals
an `Except.error`. -/
lemma nested_ite_ok_ne_error {ε β : Type} {c1 c2 : Prop} [Decidable c1] [Decidable c2]
    {x y z : β} {e : ε} :
    (if c1 then Except.ok x else if c2 then Except.ok y else Except.ok z) ≠ Except.error e := by
  split
  · simp
  · split <;> simp

/-- Claim C10: every successfully constructed processor (the subclass
delegates to the same `__init__` validation) has `return_type` equal to
one of `"json"`, `"pandas"`, `"polars"` — the stored attribute is never
reassigned by any operation, so in this embedding it is threaded as an
immutable value — and consequently the `Unsupported return type`
`ValueError` branches of `_format_output` and `_merge_data` are
unreachable for such a processor: `_format_output` always succeeds and
`_merge_data` can only fail with a representation mismatch, never with
the unsupported-return-type error. -/
theorem return_type_invariant :
    ∀ (rt rt' : String), initProcessor rt = .ok rt' →
      (rt' = "json" ∨ rt' = "pandas" ∨ rt' = "polars") ∧
      (∀ (α : Type) (records : List α), ∃ out, formatOutput rt' records = .ok out) ∧
      (∀ (α : Type) (a b : Output α) (e : PyErr),
        mergeData rt' a b = .error e → e = .typeConfusion) := by
  intro rt rt' h
  unfold initProcessor at h
  split at h
  case isFalse => exact absurd h (by simp)
  case isTrue hv =>
    injection h with h
    subst h
    refine ⟨hv, ?_, ?_⟩
    · intro α records
      rcases hv with rfl | rfl | rfl <;> exact ⟨_, rfl⟩
    · intro α a b e hm
      rcases hv with rfl | rfl | rfl <;>
        cases a <;> cases b <;>
          simp only [mergeData, reduceIte] at hm <;>
          first
            | exact (nested_ite_ok_ne_error hm).elim
            | simp_all

/-- Witness for C10 at the concrete input `return_type = "json"`. -/
theorem return_type_invariant_witness :
    initProcessor "json" = .ok "json" ∧
    (∃ out, formatOutput "json" ([1, 2] : List Nat) = .ok out) :=
  ⟨by decide, (return_type_invariant "json" "json" (by decide)).2.1 Nat [1, 2]⟩

/-- Claim C5: for every supported representation, merging the formatted
results of two segments succeeds and yields a result whose record
sequence is exactly the pre-segment records followed by the post-segment
records (each segment's internal order untouched) and whose caller-visible
count is the sum of the two segments' counts. This is the merge applied by
the straddling branch of `fetch_data_between` (line 424). -/
theorem merge_preserves_order_and_count :
    ∀ (α : Type) (rt : String), (rt = "json" ∨ rt = "pandas" ∨ rt = "polars") →
    ∀ (xs ys : List α), ∃ (a b m : Output α),
      formatOutput rt xs = .ok a ∧ formatOutput rt ys = .ok b ∧
      mergeData rt a b = .ok m ∧
      outputRecords m = xs ++ ys ∧
      outputCount m = xs.length + ys.length := by
  rintro α rt (rfl | rfl | rfl) xs ys
  · exact ⟨.json xs, .json ys, .json (xs ++ ys), rfl, rfl, rfl, rfl,
      by simp [outputCount, outputRecords]⟩
  · by_cases hx : xs.isEmpty
    · rw [List.isEmpty_iff] at hx
      subst hx
      exact ⟨.pandas [], .pandas ys, .pandas ys, rfl, rfl,
        by simp [mergeData], rfl, by simp [outputCount, outputRecords]⟩
    · by_cases hy : ys.isEmpty
      · rw [List.isEmpty_iff] at hy
        subst hy
        exact ⟨.pandas xs, .pandas [], .pandas xs, rfl, rfl,
          by simp [mergeData, hx], by simp [outputRecords],
          by simp [outputCount, outputRecords]⟩
      · exact ⟨.pandas xs, .pandas ys, .pandas (xs ++ ys), rfl, rfl,
          by simp [mergeData, hx, hy], rfl, by simp [outputCount, outputRecords]⟩
  · by_cases hx : xs.isEmpty
    · rw [List.isEmpty_iff] at hx
      subst hx
      exact ⟨.polars [], .polars ys, .polars ys, rfl, rfl,
        by simp [mergeData], rfl, by simp [outputCount, outputRecords]⟩
    · by_cases hy : ys.isEmpty
      · rw [List.isEmpty_iff] at hy
        subst hy
        exact ⟨.polars xs, .polars [], .polars xs, rfl, rfl,
          by simp [mergeData, hx], by simp [outputRecords],
          by simp [outputCount, outputRecords]⟩
      · exact ⟨.polars xs, .polars ys, .polars (xs ++ ys), rfl, rfl,
          by simp [mergeData, hx, hy], rfl, by simp [outputCount, outputRecords]⟩

/-- Witness for C5 at `return_type = "polars"`, segments `[1]` and
`[2, 3]`. -/
theorem merge_preserves_order_and_count_witness :
    ∃ (a b m : Output Nat),
      formatOutput "polars" [1] = .ok a ∧ formatOutput "polars" [2, 3] = .ok b ∧
      mergeData "polars" a b = .ok m ∧
      outputRecords m = [1] ++ [2, 3] ∧
      outputCount m = ([1] : List Nat).length + ([2, 3] : List Nat).length :=
  merge_preserves_order_and_count Nat "polars" (by simp) [1] [2, 3]

/-- Claim C6: in every output representation, merging the formatted empty
segment with any segment returns that segment's result unchanged (same
records, hence same order and count), on either side; and merging the
empty result with itself yields the empty result, whose count is `0` —
no error is raised. -/
theorem merge_empty_segment_identity :
    ∀ (α : Type) (rt : String), (rt = "json" ∨ rt = "pandas" ∨ rt = "polars") →
    ∀ (ys : List α) (e a : Output α),
      formatOutput rt [] = .ok e → formatOutput rt ys = .ok a →
      mergeData rt e a = .ok a ∧
      mergeData rt a e = .ok a ∧
      mergeData rt e e = .ok e ∧
      outputCount e = 0 := by
  rintro α rt (rfl | rfl | rfl) ys e a he ha <;>
    (injection he with he; injection ha with ha; subst he; subst ha)
  · refine ⟨by simp [mergeData], by simp [mergeData], by simp [mergeData], by simp [outputCount, outputRecords]⟩
  · by_cases hy : ys.isEmpty
    · rw [List.isEmpty_iff] at hy
      subst hy
      exact ⟨by simp [mergeData], by simp [mergeData], by simp [mergeData],
        by simp [outputCount, outputRecords]⟩
    · exact ⟨by simp [mergeData], by simp [mergeData, hy], by simp [mergeData],
        by simp [outputCount, outputRecords]⟩
  · by_cases hy : ys.isEmpty
    · rw [List.isEmpty_iff] at hy
      subst hy
      exact ⟨by simp [mergeData], by simp [mergeData], by simp [mergeData],
        by simp [outputCount, outputRecords]⟩
    · exact ⟨by simp [mergeData], by simp [mergeData, hy], by simp [mergeData],
        by simp [outputCount, outputRecords]⟩

/-- Witness for C6 at `return_type = "pandas"`, non-empty segment `[5]`. -/
theorem merge_empty_segment_identity_witness :
    mergeData "pandas" (Output.pandas ([] : List Nat)) (.pandas [5]) = .ok (.pandas [5]) ∧
    mergeData "pandas" (Output.pandas [5]) (.pandas ([] : List Nat)) = .ok (.pandas [5]) ∧
    mergeData "pandas" (Output.pandas ([] : List Nat)) (.pandas []) = .ok (.pandas []) ∧
    outputCount (Output.pandas ([] : List Nat)) = 0 :=
  merge_empty_segment_identity Nat "pandas" (by simp) [5] (.pandas []) (.pandas [5]) rfl rfl

/-- Claim C7: for every caller-supplied `where` clause and date bounds, the
combined filter is literally the caller clause and the generated date
clause each wrapped in parentheses and conjoined with `AND`, so both
original fragments occur intact (as contiguous substrings) in the result;
and the generated clause is the ODSQL range-membership form whose API-side
semantics (modelled from the spec) selects exactly the records whose
datetime lies in the closed interval `[start, end]`. -/
theorem filter_composition :
    ∀ (w start_date_str end_date_str : String),
      combineWhere (some w) (dateFilterClause start_date_str end_date_str) =
        "(" ++ w ++ ") AND (" ++ dateFilterClause start_date_str end_date_str ++ ")" ∧
      (w.toList <:+: (combineWhere (some w) (dateFilterClause start_date_str end_date_str)).toList) ∧
      ((dateFilterClause start_date_str end_date_str).toList <:+:
        (combineWhere (some w) (dateFilterClause start_date_str end_date_str)).toList) ∧
      (∀ s e d : Nat, odsqlRangeSelects s e d = true ↔ (s ≤ d ∧ d ≤ e)) := by
  intro w s e
  refine ⟨rfl, ?_, ?_, ?_⟩
  · exact ⟨"(".toList, (") AND (" ++ dateFilterClause s e ++ ")").toList,
      by simp [combineWhere, String.toList]⟩
  · exact ⟨("(" ++ w ++ ") AND (").toList, ")".toList,
      by simp [combineWhere, String.toList]⟩
  · intro s' e' d
    simp [odsqlRangeSelects]

/-- Claim C1: for a query resolved by `dataset_name` (with the module's
transition instant 2024-05-22): if the end date is strictly before the
transition, only the `pre_mari` id is queried with the range unchanged; if
the start date is on or after the transition, only the `post_mari` id with
the range unchanged; otherwise exactly two segments, the `pre_mari` one
over `[start, transition − 1 day]` followed by the `post_mari` one over
`[transition, end]`, so the transition day belongs wholly to the post
segment and the two sub-ranges are disjoint. -/
theorem transition_routing_by_name :
    ∀ (name pre_mari_id post_mari_id : String) (sv ev : PyV) (s e : Nat),
      lookupMapping name = some (pre_mari_id, post_mari_id) →
      toDt sv = .ok s → toDt ev = .ok e → s ≤ e →
      ((e < MARI_TRANSITION_DATE_DP →
        fetchDataBetween sv ev none (some name) =
          .ok [⟨.pstr pre_mari_id, strOf sv, strOf ev⟩]) ∧
       (MARI_TRANSITION_DATE_DP ≤ s →
        fetchDataBetween sv ev none (some name) =
          .ok [⟨.pstr post_mari_id, strOf sv, strOf ev⟩]) ∧
       (s < MARI_TRANSITION_DATE_DP → MARI_TRANSITION_DATE_DP ≤ e →
        fetchDataBetween sv ev none (some name) =
          .ok [⟨.pstr pre_mari_id, strOf sv, fmtDate (MARI_TRANSITION_DATE_DP - 1)⟩,
               ⟨.pstr post_mari_id, fmtDate MARI_TRANSITION_DATE_DP, strOf ev⟩])) := by
  intro name pre post sv ev s e hmap hs he hse
  refine ⟨fun h1 => ?_, fun h1 => ?_, fun h1 h2 => ?_⟩
  · simp [fetchDataBetween, hs, he, hmap, h1]
  · have hn : ¬ e < MARI_TRANSITION_DATE_DP := by omega
    simp [fetchDataBetween, hs, he, hmap, h1, hn]
  · have hn : ¬ MARI_TRANSITION_DATE_DP ≤ s := by omega
    have hn2 : ¬ e < MARI_TRANSITION_DATE_DP := by omega
    simp [fetchDataBetween, hs, he, hmap, hn, hn2]

/-- Witness for C1: the straddling range 2024-04-01 to 2024-05-31 for
`IMBALANCE_PRICES_QH` yields the two expected segments with the boundary
on 2024-05-21 / 2024-05-22. -/
theorem transition_routing_by_name_witness :
    lookupMapping "IMBALANCE_PRICES_QH" = some ("ods047", "ods134") ∧
    fetchDataBetween (.pdt 20240401) (.pdt 20240531) none (some "IMBALANCE_PRICES_QH") =
      .ok [⟨.pstr "ods047", "2024-04-01", "2024-05-21"⟩,
           ⟨.pstr "ods134", "2024-05-22", "2024-05-31"⟩] := by
  refine ⟨by decide, ?_⟩
  have h := (transition_routing_by_name "IMBALANCE_PRICES_QH" "ods047" "ods134"
    (.pdt 20240401) (.pdt 20240531) 20240401 20240531 (by decide) rfl rfl
    (by decide)).2.2 (by decide) (by decide)
  exact h

/-- Claim C2 (code bug): `ImbalanceDataProcessor.fetch_data_between` is
documented to perform the same pre/post routing as the name-resolved
parent path, but its `super().fetch_data_between(id, start, end)` calls
pass the dataset id positionally into the parent's `start_date` parameter
(the parent's positional order is `(start_date, end_date, dataset_id,
dataset_name)`), so on any input — here the pre-transition range
2024-01-01..2024-03-31 documented in the class as "Uses PRE_MARI
dataset" — the parent immediately raises
`ValueError: Invalid isoformat string: 'ods047'` from
`datetime.fromisoformat`, and nothing is ever fetched. (Additionally the
two modules disagree on the transition instant itself: 2024-04-22 versus
2024-05-22.) -/
theorem imbalance_fetch_argument_order_bug :
    imbalanceFetchDataBetween "ods047" "ods134" none (.pdt 20240101) (.pdt 20240331) =
      .error (.valueError "Invalid isoformat string: \x27ods047\x27") := by
  decide

/-- Claim C8 (amended): `fetch_data_between` raises `ValueError` locally —
returning before any segment is fetched — when (a) neither `dataset_id`
nor `dataset_name` is supplied, (b) a supplied date string is unparsable
(for any combination of the other arguments that passes the
presence check), or (c) the dataset name is absent from
`DATASET_NAME_MAPPING` (checked after date parsing). The `start > end`
half of the claim's "malformed range" condition is NOT validated by the
code — see the counterexample `fetch_no_start_end_validation`. -/
theorem fetch_local_validation :
    (∀ (sv ev : PyV),
      fetchDataBetween sv ev none none =
        .error (.valueError "Either dataset_id or dataset_name must be provided")) ∧
    (∀ (s : String) (ev : PyV) (did : Option PyV) (dn : Option String),
      parseIso s = none → (did ≠ none ∨ dn ≠ none) →
      fetchDataBetween (.pstr s) ev did dn =
        .error (.valueError ("Invalid isoformat string: \x27" ++ s ++ "\x27"))) ∧
    (∀ (name : String) (s e : Nat),
      lookupMapping name = none →
      fetchDataBetween (.pdt s) (.pdt e) none (some name) =
        .error (.valueError ("Dataset name \x27" ++ name ++
          "\x27 not found in DATASET_NAME_MAPPING"))) := by
  refine ⟨?_, ?_, ?_⟩
  · intro sv ev
    simp [fetchDataBetween]
  · intro s ev did dn hparse hpresent
    have hcond : ¬(did = none ∧ dn = none) := by
      rcases hpresent with h | h <;> intro hc <;> exact h (by simp [hc.1, hc.2])
    simp only [fetchDataBetween, if_neg hcond, toDt, hparse]
  · intro name s e hmap
    simp [fetchDataBetween, toDt, hmap]

/-- Witness for C8 at concrete inputs: an unparsable date string with a
valid dataset name raises the local `ValueError`. -/
theorem fetch_local_validation_witness :
    parseIso "not-a-date" = none ∧
    fetchDataBetween (.pstr "not-a-date") (.pdt 20240101) none (some "SYSTEM_IMBALANCE") =
      .error (.valueError "Invalid isoformat string: \x27not-a-date\x27") :=
  ⟨by decide, fetch_local_validation.2.1 "not-a-date" (.pdt 20240101) none
    (some "SYSTEM_IMBALANCE") (by decide) (.inr (by simp))⟩

/-- Counterexample for C8 as stated: the claim says a malformed range with
`start > end` fails with `InvalidQuery` before any network call, but the
code performs no such check — the reversed range 2024-01-10..2024-01-05
is routed to the pre-transition dataset and queried as-is. -/
theorem fetch_no_start_end_validation :
    20240105 < 20240110 ∧
    fetchDataBetween (.pdt 20240110) (.pdt 20240105) none (some "SYSTEM_IMBALANCE") =
      .ok [⟨.pstr "ods045", "2024-01-10", "2024-01-05"⟩] := by
  exact ⟨by decide, by decide⟩

/-- One unfolding of the pagination loop body, mirroring the `while True`
body of `_fetch_via_pagination` (fetch batch; stop on empty; accumulate;
stop on short batch; advance offset; stop with a warning past the
ceiling). -/
lemma pagGo_succ {α : Type} (t : Nat → Nat → List α) (limit fuel offset : Nat)
    (acc : List α) (calls : List Nat) :
    pagGo t limit (fuel + 1) offset acc calls =
      (if (t limit offset).isEmpty then some (acc, calls ++ [offset], false)
       else if (t limit offset).length < limit then
         some (acc ++ t limit offset, calls ++ [offset], false)
       else if limit + (offset + limit) > 10000 then
         some (acc ++ t limit offset, calls ++ [offset], true)
       else pagGo t limit fuel (offset + limit) (acc ++ t limit offset) (calls ++ [offset])) :=
  rfl

/-- Loop invariant for the paginator over a slice transport: started at the
page index `j` (offset `j * limit`) with every earlier page full, and with
the whole result set reachable under the ceiling, the loop drains the rest
of `data`, calls exactly the offsets `j*limit, …, (len/limit)*limit`, and
never fires the truncation warning. -/
lemma pagGo_slice_spec {α : Type} (data : List α) (limit : Nat) (h1 : 0 < limit)
    (h2 : data.length / limit * limit + limit ≤ 10000) :
    ∀ (fuel j : Nat) (acc : List α) (calls : List Nat),
      data.length / limit - j < fuel → j ≤ data.length / limit →
      pagGo (sliceTransport data) limit fuel (j * limit) acc calls =
        some (acc ++ data.drop (j * limit),
          calls ++ (List.range (data.length / limit - j + 1)).map (fun i => (j + i) * limit),
          false) := by
  intro fuel
  induction fuel with
  | zero => intro j acc calls hf hj; omega
  | succ fuel ih =>
    intro j acc calls hf hj
    have hKlim : data.length / limit * limit ≤ data.length := Nat.div_mul_le_self _ _
    have hmod : data.length % limit < limit := Nat.mod_lt _ h1
    have hdm : data.length / limit * limit + data.length % limit = data.length :=
      Nat.div_add_mod' _ _
    have hdl : (data.drop (j * limit)).length = data.length - j * limit := List.length_drop _ _
    rw [pagGo_succ]
    by_cases hjK : j = data.length / limit
    · subst hjK
      have htake : (data.drop (data.length / limit * limit)).take limit =
          data.drop (data.length / limit * limit) :=
        List.take_of_length_le (by omega)
      by_cases hR : data.length % limit = 0
      · have hnil : data.drop (data.length / limit * limit) = [] :=
          List.eq_nil_of_length_eq_zero (by omega)
        simp only [sliceTransport, htake, hnil]
        simp [List.range_succ]
      · have hlt : (data.drop (data.length / limit * limit)).length < limit := by omega
        have hne : ¬ (data.drop (data.length / limit * limit)).isEmpty := by
          rw [List.isEmpty_iff]
          intro hh
          rw [hh] at hdl
          simp at hdl
          omega
        simp only [sliceTransport, htake]
        rw [if_neg (by simpa using hne), if_pos hlt]
        simp [List.range_succ]
    · have hjlt : j < data.length / limit := by omega
      have hmul : (j + 1) * limit = j * limit + limit := by ring
      have hsucc : (j + 1) * limit ≤ data.length / limit * limit :=
        Nat.mul_le_mul_right _ (by omega)
      have hfull : limit ≤ (data.drop (j * limit)).length := by omega
      have hblen : ((data.drop (j * limit)).take limit).length = limit := by
        rw [List.length_take]
        omega
      have hbne : ¬ ((data.drop (j * limit)).take limit).isEmpty := by
        rw [List.isEmpty_iff]
        intro hh
        rw [hh] at hblen
        simp at hblen
        omega
      simp only [sliceTransport]
      rw [if_neg (by simpa using hbne), if_neg (by omega), if_neg (by omega)]
      have hoff : j * limit + limit = (j + 1) * limit := hmul.symm
      rw [hoff, ih (j + 1) _ _ (by omega) (by omega)]
      have hrec : (data.drop (j * limit)).take limit ++ data.drop ((j + 1) * limit) =
          data.drop (j * limit) := by
        have hdd : data.drop ((j + 1) * limit) = (data.drop (j * limit)).drop limit := by
          rw [List.drop_drop, hmul]
        rw [hdd, List.take_append_drop]
      have hm : data.length / limit - (j + 1) + 1 = data.length / limit - j := by omega
      have hcalls : (j * limit) ::
            (List.range (data.length / limit - (j + 1) + 1)).map (fun i => (j + 1 + i) * limit) =
          (List.range (data.length / limit - j + 1)).map (fun i => (j + i) * limit) := by
        have hhead : (j + 0) * limit = j * limit := by simp
        have htail : (List.range (data.length / limit - j)).map
              ((fun i => (j + i) * limit) ∘ Nat.succ) =
            (List.range (data.length / limit - j)).map (fun i => (j + 1 + i) * limit) := by
          refine List.map_congr_left fun i _ => ?_
          show (j + (i + 1)) * limit = (j + 1 + i) * limit
          ring_nf
        rw [hm, List.range_succ_eq_map, List.map_cons, List.map_map, hhead, htail]
      rw [List.append_assoc, hrec, ← hcalls]
      simp

/-- Claim C3 (amended): against a server-side result set `data` served in
slices (so the server-declared `total_count` is `data.length`), and
provided the whole result set is reachable under the 10,000-record safety
ceiling (`data.length / batch_size * batch_size + batch_size ≤ 10000`,
i.e. the first empty-or-short page is fetched before the ceiling check can
fire), the paginator calls the transport strictly sequentially at offsets
`0, b, 2b, …, (len/b)·b`, stopping exactly at the first page that is empty
or shorter than `batch_size`, accumulates exactly the concatenation of the
pages in fetch order — all of `data`, so `len(records)` equals the
server-declared total and in particular does not exceed it — and does not
fire the truncation warning. Without the ceiling hypothesis the claim as
stated is false: see `pagination_ceiling_preempts_short_page`. -/
theorem pagination_stops_at_first_short_page :
    ∀ (α : Type) (data : List α) (limit : Nat), 0 < limit →
      data.length / limit * limit + limit ≤ 10000 →
      fetchViaPagination (sliceTransport data) limit =
        some (data, (List.range (data.length / limit + 1)).map (fun i => i * limit), false) := by
  intro α data limit h1 h2
  have hKsmall : data.length / limit < 10001 := by
    have := Nat.le_mul_of_pos_right (data.length / limit) h1
    omega
  have h := pagGo_slice_spec data limit h1 h2 10001 0 [] [] (by omega) (Nat.zero_le _)
  rw [fetchViaPagination, show (0 : Nat) = 0 * limit from by ring, h]
  simp

/-- Witness for C3 at the concrete server data `[10, 20, 30]` with
`batch_size = 2`: pages `[10, 20]` then the short page `[30]`, fetched at
offsets `0` and `2`, with no truncation. -/
theorem pagination_stops_at_first_short_page_witness :
    (0 < 2 ∧ ([10, 20, 30] : List Nat).length / 2 * 2 + 2 ≤ 10000) ∧
    fetchViaPagination (sliceTransport ([10, 20, 30] : List Nat)) 2 =
      some ([10, 20, 30],
        (List.range (([10, 20, 30] : List Nat).length / 2 + 1)).map (fun i => i * 2),
        false) :=
  ⟨⟨by decide, by decide⟩,
    pagination_stops_at_first_short_page Nat [10, 20, 30] 2 (by decide) (by decide)⟩

/-- Counterexample for C3 as stated: with 10,001 server records and
`batch_size = 10000` there IS a page shorter than the batch size (the
second page, one record), but the paginator stops at the safety ceiling
after the first page — one call at offset 0, 10,000 records accumulated,
truncation warning fired — not at the first short page with the full
result set, as the claim requires. -/
theorem pagination_ceiling_preempts_short_page :
    ¬ (fetchViaPagination (sliceTransport (List.replicate 10001 (0 : Nat))) 10000 =
        some (List.replicate 10001 (0 : Nat),
          (List.range ((List.replicate 10001 (0 : Nat)).length / 10000 + 1)).map
            (fun i => i * 10000),
          false)) := by
  intro h
  have hrun : fetchViaPagination (sliceTransport (List.replicate 10001 (0 : Nat))) 10000 =
      some (List.replicate 10000 (0 : Nat), [0], true) := by
    rw [fetchViaPagination, show (10001 : Nat) = 10000 + 1 from rfl, pagGo_succ]
    have hbatch : sliceTransport (List.replicate 10001 (0 : Nat)) 10000 0 =
        List.replicate 10000 (0 : Nat) := by
      show ((List.replicate 10001 (0 : Nat)).drop 0).take 10000 = _
      rw [List.drop_zero, List.take_replicate, show min 10000 10001 = 10000 from by decide]
    rw [hbatch]
    have hne : ¬ (List.replicate 10000 (0 : Nat)).isEmpty = true := by
      rw [List.isEmpty_iff]
      intro hh
      have hl := congrArg List.length hh
      rw [List.length_replicate] at hl
      exact absurd hl (by decide)
    rw [if_neg hne, List.length_replicate, if_neg (by decide), if_pos (by decide),
      List.nil_append, List.nil_append]
  rw [hrun] at h
  injection h with h2
  have hbool : (true : Bool) = false := congrArg (fun p : List Nat × List Nat × Bool => p.2.2) h2
  exact absurd hbool (by decide)

/-- Helper: `flatMap` respects pointwise-equal functions. -/
lemma flatMap_congr_left {α β : Type} (l : List α) (f g : α → List β)
    (h : ∀ a ∈ l, f a = g a) : l.flatMap f = l.flatMap g := by
  induction l with
  | nil => rfl
  | cons a l ih =>
    rw [List.flatMap_cons, List.flatMap_cons, h a (by simp),
      ih (fun x hx => h x (by simp [hx]))]

/-- Loop invariant for the paginator against a transport whose every page
is exactly full: started at page index `j` (with the number of pages the
ceiling allows being `p = max 1 (10000 / limit)`), the loop fetches pages
`j, …, p − 1`, then stops at the ceiling check with the truncation warning
fired, never raising. -/
lemma pagGo_full_spec {α : Type} (t : Nat → Nat → List α) (limit : Nat) (h1 : 0 < limit)
    (hfull : ∀ o, (t limit o).length = limit) :
    ∀ (fuel j : Nat) (acc : List α) (calls : List Nat),
      max 1 (10000 / limit) - j ≤ fuel → j < max 1 (10000 / limit) →
      pagGo t limit fuel (j * limit) acc calls =
        some (acc ++ (List.range (max 1 (10000 / limit) - j)).flatMap
            (fun i => t limit ((j + i) * limit)),
          calls ++ (List.range (max 1 (10000 / limit) - j)).map (fun i => (j + i) * limit),
          true) := by
  intro fuel
  induction fuel with
  | zero => intro j acc calls hf hj; omega
  | succ fuel ih =>
    intro j acc calls hf hj
    rw [pagGo_succ]
    have hblen : (t limit (j * limit)).length = limit := hfull _
    have hbne : ¬ (t limit (j * limit)).isEmpty = true := by
      rw [List.isEmpty_iff]
      intro hh
      rw [hh] at hblen
      simp at hblen
      omega
    rw [if_neg hbne, hblen, if_neg (by omega)]
    by_cases hlast : j + 1 = max 1 (10000 / limit)
    · have hdiv : 10000 / limit < max 1 (10000 / limit) + 1 := by omega
      have hmulgt := (Nat.div_lt_iff_lt_mul h1).mp hdiv
      have hgt : limit + (j * limit + limit) > 10000 := by
        have harith : (max 1 (10000 / limit) + 1) * limit = (j + 1 + 1) * limit := by
          rw [hlast]
        have harith2 : (j + 1 + 1) * limit = limit + (j * limit + limit) := by ring
        omega
      rw [if_pos hgt]
      have hpj : max 1 (10000 / limit) - j = 1 := by omega
      rw [hpj]
      simp [List.range_succ]
    · have hjlt : j + 1 < max 1 (10000 / limit) := by omega
      have hle : ¬ limit + (j * limit + limit) > 10000 := by
        have h2le : j + 2 ≤ 10000 / limit := by omega
        have hmle := Nat.mul_le_mul_right limit h2le
        have hdms := Nat.div_mul_le_self 10000 limit
        have harith : (j + 2) * limit = limit + (j * limit + limit) := by ring
        omega
      rw [if_neg hle, show j * limit + limit = (j + 1) * limit from by ring,
        ih (j + 1) _ _ (by omega) hjlt]
      have hsz : max 1 (10000 / limit) - j = (max 1 (10000 / limit) - (j + 1)) + 1 := by omega
      have hrecords : t limit (j * limit) ++
            (List.range (max 1 (10000 / limit) - (j + 1))).flatMap
              (fun i => t limit ((j + 1 + i) * limit)) =
          (List.range (max 1 (10000 / limit) - j)).flatMap
            (fun i => t limit ((j + i) * limit)) := by
        rw [hsz, List.range_succ_eq_map, List.flatMap_cons, List.flatMap_map]
        have hh : t limit ((j + 0) * limit) = t limit (j * limit) := by
          rw [Nat.add_zero]
        rw [hh]
        have ht : (List.range (max 1 (10000 / limit) - (j + 1))).flatMap
              (fun i => t limit ((j + i.succ) * limit)) =
            (List.range (max 1 (10000 / limit) - (j + 1))).flatMap
              (fun i => t limit ((j + 1 + i) * limit)) := by
          refine flatMap_congr_left _ _ _ fun i _ => ?_
          show t limit ((j + (i + 1)) * limit) = t limit ((j + 1 + i) * limit)
          rw [show j + (i + 1) = j + 1 + i from by omega]
        rw [ht]
      have hcalls : (j * limit) ::
            (List.range (max 1 (10000 / limit) - (j + 1))).map (fun i => (j + 1 + i) * limit) =
          (List.range (max 1 (10000 / limit) - j)).map (fun i => (j + i) * limit) := by
        rw [hsz, List.range_succ_eq_map, List.map_cons, List.map_map,
          show (j + 0) * limit = j * limit from by simp]
        have ht : (List.range (max 1 (10000 / limit) - (j + 1))).map
              ((fun i => (j + i) * limit) ∘ Nat.succ) =
            (List.range (max 1 (10000 / limit) - (j + 1))).map
              (fun i => (j + 1 + i) * limit) := by
          refine List.map_congr_left fun i _ => ?_
          show (j + (i + 1)) * limit = (j + 1 + i) * limit
          ring_nf
        rw [ht]
      rw [List.append_assoc, hrecords, ← hcalls]
      simp

/-- Claim C4 (amended): if the transport keeps returning exactly full
batches, the paginator stops at the first offset at which
`batch_size + offset` exceeds the 10,000-record safety ceiling — it
fetches exactly the pages `0, b, …, (p−1)·b` with `p = max 1 (10000 / b)`
and accumulates their concatenation — raises no exception (the loop
terminates with a result), and fires the warning-level truncation signal
(the instrumented `logger.warning` flag is `true`). The signal is only a
log message: it is NOT attached to the returned result, which is
indistinguishable from a complete one — see
`pagination_truncation_invisible_to_caller`. -/
theorem pagination_ceiling_truncates :
    ∀ (α : Type) (t : Nat → Nat → List α) (limit : Nat), 0 < limit →
      (∀ o, (t limit o).length = limit) →
      fetchViaPagination t limit =
        some ((List.range (max 1 (10000 / limit))).flatMap (fun i => t limit (i * limit)),
          (List.range (max 1 (10000 / limit))).map (fun i => i * limit),
          true) := by
  intro α t limit h1 hfull
  have hple : 10000 / limit ≤ 10000 := Nat.div_le_self _ _
  have h := pagGo_full_spec t limit h1 hfull 10001 0 [] [] (by omega) (by omega)
  rw [fetchViaPagination, show (0 : Nat) = 0 * limit from by ring, h]
  simp

/-- Witness for C4: a transport serving eternally full 5000-record pages is
cut off after two pages (10,000 records) with the truncation flag set. -/
theorem pagination_ceiling_truncates_witness :
    (0 < 5000 ∧
      ∀ o : Nat, (constTransport (List.replicate 5000 (0 : Nat)) 5000 o).length = 5000) ∧
    fetchViaPagination (constTransport (List.replicate 5000 (0 : Nat))) 5000 =
      some ((List.range (max 1 (10000 / 5000))).flatMap
          (fun i => constTransport (List.replicate 5000 (0 : Nat)) 5000 (i * 5000)),
        (List.range (max 1 (10000 / 5000))).map (fun i => i * 5000),
        true) :=
  ⟨⟨by decide, fun _ => by
      simp only [constTransport]
      rw [List.length_replicate]⟩,
    pagination_ceiling_truncates Nat (constTransport (List.replicate 5000 (0 : Nat))) 5000
      (by decide) (fun _ => by
        simp only [constTransport]
        rw [List.length_replicate])⟩

/-- Counterexample for C4 as stated: the truncation signal is not attached
to the caller-visible result. A truncated run (eternally full 5000-record
pages, cut off at the 10,000 ceiling) and a complete run (a 10,000-record
result set served whole under batch size 10,001) hand the caller exactly
the same formatted result, while only the first fired the warning — so
the partial result IS returned as if complete. -/
theorem pagination_truncation_invisible_to_caller :
    paginationCallerResult "json"
        (fetchViaPagination (constTransport (List.replicate 5000 (0 : Nat))) 5000) =
      paginationCallerResult "json"
        (fetchViaPagination (sliceTransport (List.replicate 10000 (0 : Nat))) 10001) ∧
    (fetchViaPagination (constTransport (List.replicate 5000 (0 : Nat))) 5000).map
      (fun r => r.2.2) = some true ∧
    (fetchViaPagination (sliceTransport (List.replicate 10000 (0 : Nat))) 10001).map
      (fun r => r.2.2) = some false := by
  have hrep : List.replicate 5000 (0 : Nat) ++ List.replicate 5000 (0 : Nat) =
      List.replicate 10000 (0 : Nat) := by
    rw [← List.replicate_add]
  have hne5 : ¬ (List.replicate 5000 (0 : Nat)).isEmpty = true := by
    rw [List.isEmpty_iff]
    intro hh
    have hl := congrArg List.length hh
    rw [List.length_replicate] at hl
    exact absurd hl (by decide)
  have hA : fetchViaPagination (constTransport (List.replicate 5000 (0 : Nat))) 5000 =
      some (List.replicate 10000 (0 : Nat), [0, 5000], true) := by
    rw [fetchViaPagination, show (10001 : Nat) = 10000 + 1 from rfl, pagGo_succ]
    simp only [constTransport]
    rw [if_neg hne5, List.length_replicate, if_neg (by decide), if_neg (by decide)]
    rw [show (10000 : Nat) = 9999 + 1 from rfl, pagGo_succ]
    simp only [constTransport]
    rw [if_neg hne5, List.length_replicate, if_neg (by decide), if_pos (by decide)]
    rw [List.nil_append, List.nil_append, hrep]
    rfl
  have hB : fetchViaPagination (sliceTransport (List.replicate 10000 (0 : Nat))) 10001 =
      some (List.replicate 10000 (0 : Nat), [0], false) := by
    rw [fetchViaPagination, show (10001 : Nat) = 10000 + 1 from rfl, pagGo_succ]
    have hbatch : sliceTransport (List.replicate 10000 (0 : Nat)) 10001 0 =
        List.replicate 10000 (0 : Nat) := by
      show ((List.replicate 10000 (0 : Nat)).drop 0).take 10001 = _
      rw [List.drop_zero, List.take_replicate, show min 10001 10000 = 10000 from by decide]
    rw [hbatch]
    have hne : ¬ (List.replicate 10000 (0 : Nat)).isEmpty = true := by
      rw [List.isEmpty_iff]
      intro hh
      have hl := congrArg List.length hh
      rw [List.length_replicate] at hl
      exact absurd hl (by decide)
    rw [if_neg hne, List.length_replicate, if_pos (by decide),
      List.nil_append, List.nil_append]
  refine ⟨?_, ?_, ?_⟩
  · rw [hA, hB]
    rfl
  · rw [hA]
    rfl
  · rw [hB]
    rfl

/-- Claim C9: in bulk mode (`export_data=True` routes
`_fetch_data_for_period` to `_fetch_via_export`) the fetch is one single
`client.export` request and zero `get_records` calls (no pagination loop);
the requested export format is the columnar binary `"parquet"` exactly for
the tabular targets (`"pandas"`, `"polars"`) and raw `"json"` for the
`"json"` target; and the decoded payload lands in the same shape
`_format_output` gives the paginator's accumulated records — so the
downstream merge code is format-agnostic. -/
theorem export_path_single_request_format_and_shape :
    ∀ (α : Type) (rt : String), (rt = "json" ∨ rt = "pandas" ∨ rt = "polars") →
    ∀ (jsonPayload : JsonExport α) (parquetRows : List α),
      (fetchViaExport jsonPayload parquetRows rt).exportCalls = 1 ∧
      (fetchViaExport jsonPayload parquetRows rt).recordCalls = 0 ∧
      (fetchViaExport jsonPayload parquetRows rt).exportFormat =
        (if rt = "json" then "json" else "parquet") ∧
      (fetchViaExport jsonPayload parquetRows rt).result =
        formatOutput rt
          (if rt = "json" then jsonExportRecords jsonPayload else parquetRows) := by
  rintro α rt (rfl | rfl | rfl) jsonPayload parquetRows <;>
    exact ⟨rfl, rfl, by rfl, by rfl⟩

/-- Witness for C9 at `return_type = "pandas"`, a bare-list JSON payload
`[1]` and parquet rows `[2, 3]`. -/
theorem export_path_single_request_format_and_shape_witness :
    ("pandas" = "json" ∨ "pandas" = "pandas" ∨ "pandas" = "polars") ∧
    (fetchViaExport (JsonExport.bare ([1] : List Nat)) [2, 3] "pandas").exportFormat =
      (if "pandas" = "json" then "json" else "parquet") ∧
    (fetchViaExport (JsonExport.bare ([1] : List Nat)) [2, 3] "pandas").result =
      formatOutput "pandas"
        (if "pandas" = "json" then jsonExportRecords (JsonExport.bare ([1] : List Nat))
         else [2, 3]) :=
  ⟨Or.inr (Or.inl rfl),
    (export_path_single_request_format_and_shape Nat "pandas" (Or.inr (Or.inl rfl))
      (JsonExport.bare [1]) [2, 3]).2.2.1,
    (export_path_single_request_format_and_shape Nat "pandas" (Or.inr (Or.inl rfl))
      (JsonExport.bare [1]) [2, 3]).2.2.2⟩

end EliaOpendata
